import Mathlib

/-!
Verification development for the CUDA device-side assertion (DSA) host registry
declared in c10/cuda/CUDADeviceAssertionHost.h.

The header declares the data model (DeviceAssertionData, DeviceAssertionsData,
CUDAKernelLaunchInfo, CUDAKernelLaunchRegistry) together with the sizing
constants and the exact machine-integer widths of every field.  The bodies of
the member functions live in a translation unit that is not part of the
source tree here, so each operation below whose doc comment starts with
"Modelled from the spec:" is a shallow embedding built from the design
document, constrained by the declared signatures and field widths of the
header (for example, insert returns uint32_t while the counter and the
per-record generation number are uint64_t).

Machine integers are embedded as Nat with explicit reduction modulo 2 ^ 32
or 2 ^ 64 exactly where the declared C++ type forces a conversion.
-/

set_option autoImplicit false

/-- Modulus of the C++ type uint32_t. -/
def UINT32_MOD : Nat := 2 ^ 32

/-- Modulus of the C++ type uint64_t. -/
def UINT64_MOD : Nat := 2 ^ 64

/-- Number of assertion failure messages that can be stored per device
(header: constexpr int C10_CUDA_DSA_ASSERTION_COUNT = 10). -/
def C10_CUDA_DSA_ASSERTION_COUNT : Nat := 10

/-- Fixed byte size of every text field of an assertion record
(header: constexpr int C10_CUDA_DSA_MAX_STR_LEN = 512). -/
def C10_CUDA_DSA_MAX_STR_LEN : Nat := 512

/-- Declared capacity of the char array DeviceAssertionData.assertion_msg. -/
def assertion_msg_capacity : Nat := C10_CUDA_DSA_MAX_STR_LEN

/-- Declared capacity of the char array DeviceAssertionData.filename. -/
def filename_capacity : Nat := C10_CUDA_DSA_MAX_STR_LEN

/-- Declared capacity of the char array DeviceAssertionData.function_name. -/
def function_name_capacity : Nat := C10_CUDA_DSA_MAX_STR_LEN

/-- One device-side assertion failure (header struct DeviceAssertionData).
The three text fields are char arrays of size C10_CUDA_DSA_MAX_STR_LEN,
embedded as character lists whose length never exceeds the capacity;
caller is uint32_t, line_number is int, block and thread ids are int32_t
3-tuples. -/
structure DeviceAssertionData where
  assertion_msg : List Char
  filename : List Char
  function_name : List Char
  line_number : Int
  caller : Nat
  block_id : Int × Int × Int
  thread_id : Int × Int × Int
deriving DecidableEq, Repr

/-- Per-device assertion buffer (header struct DeviceAssertionsData):
a running count (int32_t in the header, only ever incremented by the
device-side writer, embedded as Nat) and an array of
C10_CUDA_DSA_ASSERTION_COUNT records. -/
structure DeviceAssertionsData where
  assertion_count : Nat
  assertions : List DeviceAssertionData
deriving DecidableEq, Repr

/-- Modelled from the spec: truncation policy of the fixed-size text fields
(section 9 of the design: bounded-length text buffers with explicit
truncation, never overflow).  The device-side copy routine is not under
the source tree. -/
def storeTextField (cap : Nat) (s : List Char) : List Char :=
  s.take cap

/-- Modelled from the spec: building a DeviceAssertionData honours the
declared field widths of the header: each text payload is truncated to its
array capacity and the caller id is stored in a uint32_t field. -/
def mkDeviceAssertionData (msg file fn : List Char) (line : Int) (caller_id : Nat)
    (blk thr : Int × Int × Int) : DeviceAssertionData :=
  { assertion_msg := storeTextField assertion_msg_capacity msg
    filename := storeTextField filename_capacity file
    function_name := storeTextField function_name_capacity fn
    line_number := line
    caller := caller_id % UINT32_MOD
    block_id := blk
    thread_id := thr }

/-- A zero-initialized DeviceAssertionData, as produced by zeroing the
managed-memory allocation (all 512 bytes of each char array are NUL). -/
def zeroDeviceAssertionData : DeviceAssertionData :=
  { assertion_msg := List.replicate C10_CUDA_DSA_MAX_STR_LEN (Char.ofNat 0)
    filename := List.replicate C10_CUDA_DSA_MAX_STR_LEN (Char.ofNat 0)
    function_name := List.replicate C10_CUDA_DSA_MAX_STR_LEN (Char.ofNat 0)
    line_number := 0
    caller := 0
    block_id := (0, 0, 0)
    thread_id := (0, 0, 0) }

/-- A zero-initialized per-device buffer: count 0 and
C10_CUDA_DSA_ASSERTION_COUNT zeroed records. -/
def zeroDeviceAssertionsData : DeviceAssertionsData :=
  { assertion_count := 0
    assertions := List.replicate C10_CUDA_DSA_ASSERTION_COUNT zeroDeviceAssertionData }

/-- One recorded kernel launch (header struct CUDAKernelLaunchInfo).
launch_linenum is uint32_t, stream is int32_t, generation_number is
uint64_t. -/
structure CUDAKernelLaunchInfo where
  launch_filename : String
  launch_function : String
  launch_linenum : Nat
  launch_stacktrace : String
  kernel_name : String
  device : Int
  stream : Int
  generation_number : Nat
deriving DecidableEq, Repr

/-- A default-constructed CUDAKernelLaunchInfo, the initial content of every
slot of the circular launch log. -/
def emptyLaunchInfo : CUDAKernelLaunchInfo :=
  { launch_filename := ""
    launch_function := ""
    launch_linenum := 0
    launch_stacktrace := ""
    kernel_name := ""
    device := 0
    stream := 0
    generation_number := 0 }

/-- Capacity of the circular launch log (header: static constexpr int
max_kernel_launches = 1024). -/
def max_kernel_launches : Nat := 1024

/-- State of the process-wide CUDAKernelLaunchRegistry singleton.
generation_number is the uint64_t counter of inserted launches;
uvm_assertions has one entry per possible device, none for devices whose
buffer has not been allocated; kernel_launches is the circular log of
max_kernel_launches slots.  compiled_with_dsa embeds the
TORCH_USE_CUDA_DSA compile-time switch, under which the header declares
the counter at all. -/
structure CUDAKernelLaunchRegistry where
  compiled_with_dsa : Bool
  generation_number : Nat
  uvm_assertions : List (Option DeviceAssertionsData)
  kernel_launches : List CUDAKernelLaunchInfo
  do_all_devices_support_managed_memory : Bool
  gather_launch_stacktrace : Bool
  enabled : Bool
deriving DecidableEq

/-- Modelled from the spec: the registry constructor (whose body is not
under the source tree) sizes the circular log at max_kernel_launches
default records, leaves every device's buffer unallocated, starts the
counter at 0, and fills the three enablement flags from the compile-time
switch, the environment opt-out and the managed-memory capability check. -/
def mkRegistry (compiled envEnabled allSupport gatherST : Bool)
    (deviceCount : Nat) : CUDAKernelLaunchRegistry :=
  { compiled_with_dsa := compiled
    generation_number := 0
    uvm_assertions := List.replicate deviceCount none
    kernel_launches := List.replicate max_kernel_launches emptyLaunchInfo
    do_all_devices_support_managed_memory := allSupport
    gather_launch_stacktrace := gatherST
    enabled := envEnabled }

/-- True when an allocated buffer reports a non-zero assertion count. -/
def hasNonzeroCount : Option DeviceAssertionsData → Bool
  | some b => b.assertion_count != 0
  | none => false

/-- Arguments of one call to insert, together with the device the calling
thread is on and the text a stack capture would produce if stack gathering
is on. -/
structure LaunchArgs where
  launch_filename : String
  launch_function : String
  launch_linenum : Nat
  kernel_name : String
  stream_id : Int
  current_device : Int
  backtrace : String
deriving DecidableEq, Repr

/-- Modelled from the spec: the sentinel generation number returned by
insert when diagnostics are disabled (section 8, property 7). -/
def insert_sentinel : Nat := 0

/-- The LaunchRecord written for one insert call: launch site data from the
arguments, the stack trace only when gathering is enabled, and the
uint64_t generation number g. -/
def launchInfoOf (a : LaunchArgs) (gatherST : Bool) (g : Nat) : CUDAKernelLaunchInfo :=
  { launch_filename := a.launch_filename
    launch_function := a.launch_function
    launch_linenum := a.launch_linenum
    launch_stacktrace := if gatherST then a.backtrace else ""
    kernel_name := a.kernel_name
    device := a.current_device
    stream := a.stream_id
    generation_number := g }

namespace CUDAKernelLaunchRegistry

/-- Modelled from the spec: is_enabled aggregates the three enablement
signals (section 4.3); the body of CUDAKernelLaunchRegistry::is_enabled is
not under the source tree.  Any one signal being false disables the
feature. -/
def is_enabled (r : CUDAKernelLaunchRegistry) : Bool :=
  r.compiled_with_dsa && (r.do_all_devices_support_managed_memory && r.enabled)

/-- Modelled from the spec: has_failed is true iff any allocated device
buffer shows a non-zero assertion count (section 4.4); the body of
CUDAKernelLaunchRegistry::has_failed is not under the source tree. -/
def has_failed (r : CUDAKernelLaunchRegistry) : Bool :=
  r.uvm_assertions.any hasNonzeroCount

/-- Modelled from the spec: CUDAKernelLaunchRegistry::insert (body not under
the source tree).  When enabled it allocates the next generation number,
writes the LaunchRecord into slot generation mod max_kernel_launches and
returns the generation number; the header declares the return type
uint32_t and the counter uint64_t, so the returned value is the counter
reduced mod 2 ^ 32 and the counter advances mod 2 ^ 64.  When disabled it
is a no-op returning the sentinel. -/
def insert (r : CUDAKernelLaunchRegistry) (a : LaunchArgs) :
    CUDAKernelLaunchRegistry × Nat :=
  if r.is_enabled then
    ({ r with
        generation_number := (r.generation_number + 1) % UINT64_MOD
        kernel_launches :=
          r.kernel_launches.set (r.generation_number % max_kernel_launches)
            (launchInfoOf a r.gather_launch_stacktrace r.generation_number) },
      r.generation_number % UINT32_MOD)
  else
    (r, insert_sentinel)

/-- Modelled from the spec: get_uvm_assertions_ptr_for_current_device (body
not under the source tree).  When disabled it performs no allocation;
otherwise the first call for a device allocates a zero-initialized buffer
and records it in the device-to-buffer mapping, and later calls return the
recorded buffer (section 4.2, section 8 property 7). -/
def get_uvm_assertions_ptr_for_current_device (r : CUDAKernelLaunchRegistry)
    (device : Nat) : CUDAKernelLaunchRegistry × Option DeviceAssertionsData :=
  if r.is_enabled then
    match r.uvm_assertions[device]? with
    | some (some b) => (r, some b)
    | _ =>
      ({ r with
          uvm_assertions :=
            r.uvm_assertions.set device (some zeroDeviceAssertionsData) },
        some zeroDeviceAssertionsData)
  else
    (r, none)

/-- Modelled from the spec: snapshot copies every allocated device buffer
and the whole circular log under the lock (section 4.4); the body of
CUDAKernelLaunchRegistry::snapshot is not under the source tree. -/
def snapshot (r : CUDAKernelLaunchRegistry) :
    List DeviceAssertionsData × List CUDAKernelLaunchInfo :=
  (r.uvm_assertions.filterMap id, r.kernel_launches)

end CUDAKernelLaunchRegistry

/-- Modelled from the spec: the consumer-side correlation step (section
4.4): look up slot caller_id mod max_kernel_launches in the snapshotted
log; the record there is the originating launch exactly when its
generation number equals the caller id. -/
def correlate (log : List CUDAKernelLaunchInfo) (caller_id : Nat) :
    Option CUDAKernelLaunchInfo :=
  match log[caller_id % max_kernel_launches]? with
  | some info => if info.generation_number = caller_id then some info else none
  | none => none

/-- Modelled from the spec: the device-side writer (an external collaborator
whose code is out of scope of the host registry) atomically increments the
buffer count and, when the resulting index is within capacity, writes the
record at that index (section 6). -/
def deviceWriteAssertion (b : DeviceAssertionsData) (rec : DeviceAssertionData) :
    DeviceAssertionsData :=
  { assertion_count := b.assertion_count + 1
    assertions :=
      if b.assertion_count < C10_CUDA_DSA_ASSERTION_COUNT then
        b.assertions.set b.assertion_count rec
      else
        b.assertions }

/-- Folding the device-side writer over a list of failure records. -/
def deviceWriteMany (b : DeviceAssertionsData) (recs : List DeviceAssertionData) :
    DeviceAssertionsData :=
  recs.foldl deviceWriteAssertion b

/-- The device-side writer acting through the registry on one device's
allocated buffer; a device with no allocated buffer is left unchanged. -/
def registryDeviceWrite (r : CUDAKernelLaunchRegistry) (device : Nat)
    (rec : DeviceAssertionData) : CUDAKernelLaunchRegistry :=
  match r.uvm_assertions[device]? with
  | some (some b) =>
    { r with uvm_assertions := r.uvm_assertions.set device (some (deviceWriteAssertion b rec)) }
  | _ => r

/-- Running a sequence of insert calls in the order they took effect under
the log's lock, collecting the returned generation numbers. -/
def runInserts : CUDAKernelLaunchRegistry → List LaunchArgs →
    CUDAKernelLaunchRegistry × List Nat
  | r, [] => (r, [])
  | r, a :: rest =>
    let p := r.insert a
    let q := runInserts p.1 rest
    (q.1, p.2 :: q.2)

/-- A fixed example argument record used by concrete witnesses. -/
def sampleArgs : LaunchArgs :=
  { launch_filename := "a.cu"
    launch_function := "f"
    launch_linenum := 7
    kernel_name := "k"
    stream_id := 0
    current_device := 0
    backtrace := "bt" }

/-! ### Basic arithmetic facts about the machine-integer moduli -/

lemma uint64_mod_pos : 0 < UINT64_MOD := by norm_num [UINT64_MOD]

lemma max_kernel_launches_pos : 0 < max_kernel_launches := by
  norm_num [max_kernel_launches]

lemma max_kernel_launches_dvd_uint64 : max_kernel_launches ∣ UINT64_MOD := by
  norm_num [max_kernel_launches, UINT64_MOD]

lemma uint32_dvd_uint64 : UINT32_MOD ∣ UINT64_MOD := by
  have h : UINT64_MOD = UINT32_MOD * UINT32_MOD := by norm_num [UINT32_MOD, UINT64_MOD]
  exact ⟨UINT32_MOD, h⟩

/-- Shifting the uint64 counter by one commutes with reduction modulo any
divisor of 2 ^ 64 (used for the slot index, the returned uint32 value and
the counter itself). -/
lemma mod_dvd_shift (d c k : Nat) (hd : d ∣ UINT64_MOD) :
    ((c + 1) % UINT64_MOD + k) % d = (c + (k + 1)) % d := by
  calc ((c + 1) % UINT64_MOD + k) % d
      = ((c + 1) % UINT64_MOD % d + k) % d := (Nat.mod_add_mod _ _ _).symm
    _ = ((c + 1) % d + k) % d := by rw [Nat.mod_mod_of_dvd _ hd]
    _ = (c + 1 + k) % d := Nat.mod_add_mod _ _ _
    _ = (c + (k + 1)) % d := by ring_nf

/-! ### One-step facts about insert -/

lemma insert_enabled (r : CUDAKernelLaunchRegistry) (a : LaunchArgs)
    (h : r.is_enabled = true) :
    r.insert a =
      ({ r with
          generation_number := (r.generation_number + 1) % UINT64_MOD
          kernel_launches :=
            r.kernel_launches.set (r.generation_number % max_kernel_launches)
              (launchInfoOf a r.gather_launch_stacktrace r.generation_number) },
        r.generation_number % UINT32_MOD) := by
  simp [CUDAKernelLaunchRegistry.insert, h]

lemma insert_disabled (r : CUDAKernelLaunchRegistry) (a : LaunchArgs)
    (h : r.is_enabled = false) : r.insert a = (r, insert_sentinel) := by
  simp [CUDAKernelLaunchRegistry.insert, h]

lemma insert_flags (r : CUDAKernelLaunchRegistry) (a : LaunchArgs) :
    (r.insert a).1.compiled_with_dsa = r.compiled_with_dsa ∧
    (r.insert a).1.do_all_devices_support_managed_memory
      = r.do_all_devices_support_managed_memory ∧
    (r.insert a).1.enabled = r.enabled ∧
    (r.insert a).1.gather_launch_stacktrace = r.gather_launch_stacktrace ∧
    (r.insert a).1.uvm_assertions = r.uvm_assertions ∧
    (r.insert a).1.kernel_launches.length = r.kernel_launches.length := by
  cases h : r.is_enabled <;> simp [CUDAKernelLaunchRegistry.insert, h]

lemma is_enabled_insert (r : CUDAKernelLaunchRegistry) (a : LaunchArgs) :
    (r.insert a).1.is_enabled = r.is_enabled := by
  obtain ⟨p1, p2, p3, _, _, _⟩ := insert_flags r a
  simp [CUDAKernelLaunchRegistry.is_enabled, p1, p2, p3]

lemma insert_counter (r : CUDAKernelLaunchRegistry) (a : LaunchArgs)
    (h : r.is_enabled = true) :
    (r.insert a).1.generation_number = (r.generation_number + 1) % UINT64_MOD := by
  simp [CUDAKernelLaunchRegistry.insert, h]

lemma insert_counter_lt (r : CUDAKernelLaunchRegistry) (a : LaunchArgs)
    (h : r.is_enabled = true) : (r.insert a).1.generation_number < UINT64_MOD := by
  rw [insert_counter r a h]
  exact Nat.mod_lt _ uint64_mod_pos

/-! ### Facts about runInserts -/

lemma runInserts_preserves (args : List LaunchArgs) :
    ∀ r : CUDAKernelLaunchRegistry,
    (runInserts r args).1.compiled_with_dsa = r.compiled_with_dsa ∧
    (runInserts r args).1.do_all_devices_support_managed_memory
      = r.do_all_devices_support_managed_memory ∧
    (runInserts r args).1.enabled = r.enabled ∧
    (runInserts r args).1.gather_launch_stacktrace = r.gather_launch_stacktrace ∧
    (runInserts r args).1.uvm_assertions = r.uvm_assertions ∧
    (runInserts r args).1.kernel_launches.length = r.kernel_launches.length := by
  induction args with
  | nil => intro r; simp [runInserts]
  | cons a rest ih =>
    intro r
    obtain ⟨p1, p2, p3, p4, p5, p6⟩ := insert_flags r a
    obtain ⟨q1, q2, q3, q4, q5, q6⟩ := ih (r.insert a).1
    simp only [runInserts]
    exact ⟨q1.trans p1, q2.trans p2, q3.trans p3, q4.trans p4, q5.trans p5, q6.trans p6⟩

lemma is_enabled_runInserts (args : List LaunchArgs) (r : CUDAKernelLaunchRegistry) :
    (runInserts r args).1.is_enabled = r.is_enabled := by
  obtain ⟨p1, p2, p3, _, _, _⟩ := runInserts_preserves args r
  simp [CUDAKernelLaunchRegistry.is_enabled, p1, p2, p3]

lemma runInserts_counter (args : List LaunchArgs) :
    ∀ r : CUDAKernelLaunchRegistry, r.is_enabled = true →
    r.generation_number < UINT64_MOD →
    (runInserts r args).1.generation_number
      = (r.generation_number + args.length) % UINT64_MOD := by
  induction args with
  | nil =>
    intro r _ hc
    simp [runInserts, Nat.mod_eq_of_lt hc]
  | cons a rest ih =>
    intro r hen hc
    have hen1 : (r.insert a).1.is_enabled = true := (is_enabled_insert r a).trans hen
    have h1 := ih (r.insert a).1 hen1 (insert_counter_lt r a hen)
    rw [insert_counter r a hen] at h1
    simp only [runInserts]
    rw [h1, mod_dvd_shift _ _ _ (dvd_refl UINT64_MOD)]
    simp [List.length_cons]

lemma runInserts_gens_length (args : List LaunchArgs) :
    ∀ r : CUDAKernelLaunchRegistry, (runInserts r args).2.length = args.length := by
  induction args with
  | nil => intro r; simp [runInserts]
  | cons a rest ih =>
    intro r
    simp only [runInserts]
    simp [ih (r.insert a).1]

lemma runInserts_gens_get (args : List LaunchArgs) :
    ∀ (r : CUDAKernelLaunchRegistry) (k : Nat), r.is_enabled = true →
    r.generation_number < UINT64_MOD → k < args.length →
    (runInserts r args).2[k]? = some ((r.generation_number + k) % UINT32_MOD) := by
  induction args with
  | nil => intro r k _ _ hk; simp at hk
  | cons a rest ih =>
    intro r k hen hc hk
    have hen1 : (r.insert a).1.is_enabled = true := (is_enabled_insert r a).trans hen
    simp only [runInserts]
    cases k with
    | zero =>
      have h0 : (r.insert a).2 = r.generation_number % UINT32_MOD := by
        simp [CUDAKernelLaunchRegistry.insert, hen]
      simp [h0]
    | succ k =>
      have hk1 : k < rest.length := by
        simpa using Nat.lt_of_succ_lt_succ hk
      have h1 := ih (r.insert a).1 k hen1 (insert_counter_lt r a hen) hk1
      rw [insert_counter r a hen] at h1
      rw [mod_dvd_shift _ _ _ uint32_dvd_uint64] at h1
      simpa using h1

lemma insert_log (r : CUDAKernelLaunchRegistry) (a : LaunchArgs)
    (h : r.is_enabled = true) :
    (r.insert a).1.kernel_launches =
      r.kernel_launches.set (r.generation_number % max_kernel_launches)
        (launchInfoOf a r.gather_launch_stacktrace r.generation_number) := by
  simp [CUDAKernelLaunchRegistry.insert, h]

/-- Slots never written during a run keep their contents. -/
lemma runInserts_log_frame (args : List LaunchArgs) :
    ∀ (r : CUDAKernelLaunchRegistry) (s : Nat),
    (∀ j, j < args.length → (r.generation_number + j) % max_kernel_launches ≠ s) →
    (runInserts r args).1.kernel_launches[s]? = r.kernel_launches[s]? := by
  induction args with
  | nil => intro r s _; simp [runInserts]
  | cons a rest ih =>
    intro r s hs
    simp only [runInserts]
    cases hen : r.is_enabled with
    | false =>
      rw [insert_disabled r a hen]
      exact ih r s (fun j hj => hs j (by simp only [List.length_cons]; omega))
    | true =>
      have hctr := insert_counter r a hen
      have h2 := ih (r.insert a).1 s (fun j hj => by
        rw [hctr, mod_dvd_shift _ _ _ max_kernel_launches_dvd_uint64]
        exact hs (j + 1) (by simp only [List.length_cons]; omega))
      rw [h2, insert_log r a hen]
      apply List.getElem?_set_ne
      have h0 := hs 0 (by simp only [List.length_cons]; omega)
      simpa using h0

/-- The slot written by the k-th insert of a run still holds that record at
the end of the run, provided no later insert of the run hits the same
slot. -/
lemma runInserts_log_get (args : List LaunchArgs) :
    ∀ (r : CUDAKernelLaunchRegistry) (k : Nat) (hk : k < args.length),
    r.is_enabled = true → r.generation_number < UINT64_MOD →
    r.kernel_launches.length = max_kernel_launches →
    (∀ j, k < j → j < args.length →
      (r.generation_number + j) % max_kernel_launches
        ≠ (r.generation_number + k) % max_kernel_launches) →
    (runInserts r args).1.kernel_launches[(r.generation_number + k) % max_kernel_launches]?
      = some (launchInfoOf (args.get ⟨k, hk⟩) r.gather_launch_stacktrace
          ((r.generation_number + k) % UINT64_MOD)) := by
  induction args with
  | nil => intro r k hk; simp at hk
  | cons a rest ih =>
    intro r k hk hen hc hlen hlast
    have hctr := insert_counter r a hen
    have hlog := insert_log r a hen
    simp only [runInserts]
    cases k with
    | zero =>
      have hframe := runInserts_log_frame rest (r.insert a).1
        ((r.generation_number + 0) % max_kernel_launches) (fun j hj => by
          rw [hctr, mod_dvd_shift _ _ _ max_kernel_launches_dvd_uint64]
          exact hlast (j + 1) (by omega) (by simp only [List.length_cons]; omega))
      rw [hframe, hlog, Nat.add_zero]
      rw [List.getElem?_set_self (by rw [hlen]; exact Nat.mod_lt _ max_kernel_launches_pos)]
      simp [Nat.mod_eq_of_lt hc]
    | succ k =>
      have hk1 : k < rest.length := by
        simpa using Nat.lt_of_succ_lt_succ hk
      have hen1 : (r.insert a).1.is_enabled = true := (is_enabled_insert r a).trans hen
      have hlen1 : (r.insert a).1.kernel_launches.length = max_kernel_launches := by
        rw [hlog, List.length_set]; exact hlen
      have hgather : (r.insert a).1.gather_launch_stacktrace = r.gather_launch_stacktrace :=
        (insert_flags r a).2.2.2.1
      have h1 := ih (r.insert a).1 k hk1 hen1 (insert_counter_lt r a hen) hlen1
        (fun j hj1 hj2 => by
          rw [hctr, mod_dvd_shift _ _ _ max_kernel_launches_dvd_uint64,
            mod_dvd_shift _ _ _ max_kernel_launches_dvd_uint64]
          exact hlast (j + 1) (by omega) (by simp only [List.length_cons]; omega))
      rw [hctr, mod_dvd_shift _ _ _ max_kernel_launches_dvd_uint64,
        mod_dvd_shift _ _ _ (dvd_refl UINT64_MOD)] at h1
      rw [hgather] at h1
      simpa using h1

/-- Two distinct inserts hit the same circular slot only when they are at
least max_kernel_launches generations apart. -/
lemma same_slot_far (j k : Nat) (hjk : k < j)
    (h : j % max_kernel_launches = k % max_kernel_launches) :
    k + max_kernel_launches ≤ j := by
  have hd : max_kernel_launches ∣ j - k :=
    (Nat.modEq_iff_dvd' (le_of_lt hjk)).1 h.symm
  have h2 := Nat.le_of_dvd (by omega) hd
  omega

/-- Every slot of the circular log is hit by exactly the window of the last
max_kernel_launches generations: each residue has a representative. -/
lemma window_covers (n i : Nat) (hn : max_kernel_launches < n)
    (hi : i < max_kernel_launches) :
    ∃ j, n - max_kernel_launches ≤ j ∧ j < n ∧ j % max_kernel_launches = i := by
  simp only [max_kernel_launches] at *
  refine ⟨n - 1024 + ((i + 1024 - (n - 1024) % 1024) % 1024), ?_, ?_, ?_⟩ <;> omega

lemma init_is_enabled (gst : Bool) (dc : Nat) :
    (mkRegistry true true true gst dc).is_enabled = true := rfl

lemma init_counter (gst : Bool) (dc : Nat) :
    (mkRegistry true true true gst dc).generation_number = 0 := rfl

lemma init_counter_lt (gst : Bool) (dc : Nat) :
    (mkRegistry true true true gst dc).generation_number < UINT64_MOD := by
  rw [init_counter]; exact uint64_mod_pos

lemma init_log_length (gst : Bool) (dc : Nat) :
    (mkRegistry true true true gst dc).kernel_launches.length = max_kernel_launches := by
  simp [mkRegistry]

lemma init_gather (gst : Bool) (dc : Nat) :
    (mkRegistry true true true gst dc).gather_launch_stacktrace = gst := rfl

/-- After a run from a fresh enabled registry, the record of the k-th insert
is still at slot k mod max_kernel_launches provided fewer than
max_kernel_launches inserts followed it. -/
lemma init_run_log_get (gst : Bool) (dc : Nat) (args : List LaunchArgs) (k : Nat)
    (hk : k < args.length) (hwin : args.length ≤ k + max_kernel_launches) :
    (runInserts (mkRegistry true true true gst dc) args).1.kernel_launches[k % max_kernel_launches]?
      = some (launchInfoOf (args.get ⟨k, hk⟩) gst (k % UINT64_MOD)) := by
  have h := runInserts_log_get args (mkRegistry true true true gst dc) k hk
    (init_is_enabled gst dc) (init_counter_lt gst dc) (init_log_length gst dc)
    (fun j hj1 hj2 => by
      rw [init_counter, Nat.zero_add, Nat.zero_add]
      intro heq
      have h3 := same_slot_far j k hj1 heq
      omega)
  rw [init_counter, init_gather] at h
  simpa using h

/-! ### Claim C1 -/

/-- C1 (amended): starting from a fresh enabled registry, the sequence of
values returned by insert, in the order the calls took effect under the
log's lock, is exactly 0, 1, ..., n - 1 (strictly increasing, no
duplicates, no gaps) provided at most 2 ^ 32 calls are made; the returned
value is the 64-bit internal counter reduced to uint32, so after 2 ^ 32
calls the returned values repeat even though the internal counter keeps
increasing. -/
theorem c1_generation_numbers (gst : Bool) (dc : Nat) (args : List LaunchArgs)
    (h : args.length ≤ UINT32_MOD) :
    (runInserts (mkRegistry true true true gst dc) args).2 = List.range args.length := by
  apply List.ext_getElem?
  intro k
  by_cases hk : k < args.length
  · rw [runInserts_gens_get args (mkRegistry true true true gst dc) k
      (init_is_enabled gst dc) (init_counter_lt gst dc) hk]
    rw [init_counter, Nat.zero_add, List.getElem?_range hk]
    rw [Nat.mod_eq_of_lt (by omega)]
  · have h1 : (runInserts (mkRegistry true true true gst dc) args).2.length ≤ k := by
      rw [runInserts_gens_length]; omega
    rw [List.getElem?_eq_none h1, List.getElem?_eq_none (by simpa using hk)]

theorem c1_generation_numbers_witness :
    (List.replicate 3 sampleArgs).length ≤ UINT32_MOD ∧
      (runInserts (mkRegistry true true true false 1) (List.replicate 3 sampleArgs)).2
        = List.range (List.replicate 3 sampleArgs).length :=
  ⟨by norm_num [UINT32_MOD],
    c1_generation_numbers false 1 (List.replicate 3 sampleArgs) (by norm_num [UINT32_MOD])⟩

/-- C1 counterexample: the claim as stated fails for the values insert
returns.  With 2 ^ 32 + 1 calls from a fresh enabled registry, call
number 0 and call number 2 ^ 32 both return the generation number 0, so
the returned sequence has a duplicate and a generation number is reused
within the process lifetime. -/
theorem c1_counterexample :
    (runInserts (mkRegistry true true true false 1)
        (List.replicate (UINT32_MOD + 1) sampleArgs)).2[0]? = some 0 ∧
    (runInserts (mkRegistry true true true false 1)
        (List.replicate (UINT32_MOD + 1) sampleArgs)).2[UINT32_MOD]? = some 0 := by
  constructor
  · rw [runInserts_gens_get _ _ 0 (init_is_enabled false 1) (init_counter_lt false 1)
      (by simp)]
    rw [init_counter]
    norm_num [UINT32_MOD]
  · rw [runInserts_gens_get _ _ UINT32_MOD (init_is_enabled false 1) (init_counter_lt false 1)
      (by simp)]
    rw [init_counter, Nat.zero_add, Nat.mod_self]

/-! ### Claim C2 -/

/-- C2: the launch log is circular with fixed capacity
max_kernel_launches = 1024: after more than 1024 inserts from a fresh
enabled registry, the log portion of snapshot has exactly 1024 slots, each
record of the window of the 1024 most recent inserts sits at slot equal to
its generation number mod 1024, and every slot is covered by exactly that
window. -/
theorem c2_circular_log (gst : Bool) (dc : Nat) (args : List LaunchArgs)
    (hn : max_kernel_launches < args.length) (k : Nat)
    (hk1 : args.length - max_kernel_launches ≤ k) (hk2 : k < args.length) :
    (CUDAKernelLaunchRegistry.snapshot
        (runInserts (mkRegistry true true true gst dc) args).1).2.length
        = max_kernel_launches ∧
    (CUDAKernelLaunchRegistry.snapshot
        (runInserts (mkRegistry true true true gst dc) args).1).2[k % max_kernel_launches]?
        = some (launchInfoOf (args.get ⟨k, hk2⟩) gst (k % UINT64_MOD)) ∧
    (k % UINT64_MOD) % max_kernel_launches = k % max_kernel_launches ∧
    (∀ i, i < max_kernel_launches → ∃ j, args.length - max_kernel_launches ≤ j ∧
      j < args.length ∧ j % max_kernel_launches = i) := by
  refine ⟨?_, ?_, ?_, ?_⟩
  · show (runInserts (mkRegistry true true true gst dc) args).1.kernel_launches.length = _
    rw [(runInserts_preserves args (mkRegistry true true true gst dc)).2.2.2.2.2]
    exact init_log_length gst dc
  · exact init_run_log_get gst dc args k hk2 (by omega)
  · exact Nat.mod_mod_of_dvd _ max_kernel_launches_dvd_uint64
  · intro i hi
    exact window_covers args.length i hn hi

theorem c2_circular_log_witness :
    max_kernel_launches < (List.replicate 1025 sampleArgs).length ∧
      (CUDAKernelLaunchRegistry.snapshot
          (runInserts (mkRegistry true true true false 1)
            (List.replicate 1025 sampleArgs)).1).2[1024 % max_kernel_launches]?
        = some (launchInfoOf ((List.replicate 1025 sampleArgs).get
            ⟨1024, by norm_num⟩) false (1024 % UINT64_MOD)) :=
  ⟨by norm_num [max_kernel_launches],
    (c2_circular_log false 1 (List.replicate 1025 sampleArgs)
      (by norm_num [max_kernel_launches]) 1024
      (by norm_num [max_kernel_launches]) (by norm_num)).2.1⟩

/-! ### Claim C3 -/

lemma correlate_spec (log : List CUDAKernelLaunchInfo) (g : Nat)
    (info : CUDAKernelLaunchInfo) :
    correlate log g = some info ↔
      (log[g % max_kernel_launches]? = some info ∧ info.generation_number = g) := by
  unfold correlate
  cases h : log[g % max_kernel_launches]? with
  | none => simp
  | some i =>
    by_cases he : i.generation_number = g
    · simp only [he, if_pos rfl]
      constructor
      · rintro ⟨rfl⟩
        exact ⟨rfl, he⟩
      · rintro ⟨⟨rfl⟩, _⟩
        rfl
    · simp only [if_neg he]
      constructor
      · intro h2; cases h2
      · rintro ⟨⟨rfl⟩, hg⟩
        exact absurd hg he

/-- C3: correlation yields the record at slot g mod max_kernel_launches
exactly when that record's generation number equals the caller id g
(first conjunct); a launch of generation g followed by at most
max_kernel_launches - 1 further inserts is found exactly, with its launch
file, function, line and kernel name (second conjunct, g below 2 ^ 32
because the caller id handed to the kernel is uint32); a launch followed
by max_kernel_launches or more further inserts has been evicted and no
record matches (third conjunct). -/
theorem c3_correlation :
    (∀ (log : List CUDAKernelLaunchInfo) (g : Nat) (info : CUDAKernelLaunchInfo),
      correlate log g = some info ↔
        (log[g % max_kernel_launches]? = some info ∧ info.generation_number = g)) ∧
    (∀ (gst : Bool) (dc : Nat) (args : List LaunchArgs) (g : Nat)
      (h1 : g < args.length),
      args.length ≤ g + max_kernel_launches → g < UINT32_MOD →
      correlate (CUDAKernelLaunchRegistry.snapshot
          (runInserts (mkRegistry true true true gst dc) args).1).2 g
        = some (launchInfoOf (args.get ⟨g, h1⟩) gst g)) ∧
    (∀ (gst : Bool) (dc : Nat) (args : List LaunchArgs) (g : Nat),
      g + max_kernel_launches < args.length → args.length ≤ UINT64_MOD →
      correlate (CUDAKernelLaunchRegistry.snapshot
          (runInserts (mkRegistry true true true gst dc) args).1).2 g = none) := by
  refine ⟨correlate_spec, ?_, ?_⟩
  · intro gst dc args g h1 h2 h3
    have hslot := init_run_log_get gst dc args g h1 h2
    have hg64 : g % UINT64_MOD = g := by
      apply Nat.mod_eq_of_lt
      have : UINT32_MOD < UINT64_MOD := by norm_num [UINT32_MOD, UINT64_MOD]
      omega
    rw [hg64] at hslot
    rw [correlate_spec]
    exact ⟨hslot, rfl⟩
  · intro gst dc args g hfar hlen
    obtain ⟨j, hj1, hj2, hj3⟩ := window_covers args.length (g % max_kernel_launches)
      (by omega) (Nat.mod_lt _ max_kernel_launches_pos)
    have hslot := init_run_log_get gst dc args j hj2 (by omega)
    have hj64 : j % UINT64_MOD = j := Nat.mod_eq_of_lt (by omega)
    rw [hj3, hj64] at hslot
    have hslot2 : (CUDAKernelLaunchRegistry.snapshot
        (runInserts (mkRegistry true true true gst dc) args).1).2[g % max_kernel_launches]?
        = some (launchInfoOf (args.get ⟨j, hj2⟩) gst j) := hslot
    unfold correlate
    rw [hslot2]
    have hne : (launchInfoOf (args.get ⟨j, hj2⟩) gst j).generation_number ≠ g := by
      simp only [launchInfoOf]
      omega
    simp only [hslot2]
    exact if_neg hne

theorem c3_correlation_witness :
    (1 < (List.replicate 3 sampleArgs).length ∧
      correlate (CUDAKernelLaunchRegistry.snapshot
          (runInserts (mkRegistry true true true false 1)
            (List.replicate 3 sampleArgs)).1).2 1
        = some (launchInfoOf ((List.replicate 3 sampleArgs).get ⟨1, by norm_num⟩)
            false 1)) ∧
    (1 + max_kernel_launches < (List.replicate 1026 sampleArgs).length ∧
      correlate (CUDAKernelLaunchRegistry.snapshot
          (runInserts (mkRegistry true true true false 1)
            (List.replicate 1026 sampleArgs)).1).2 1 = none) :=
  ⟨⟨by norm_num,
    c3_correlation.2.1 false 1 (List.replicate 3 sampleArgs) 1 (by norm_num)
      (by norm_num [max_kernel_launches]) (by norm_num [UINT32_MOD])⟩,
   ⟨by norm_num [max_kernel_launches],
    c3_correlation.2.2 false 1 (List.replicate 1026 sampleArgs) 1
      (by norm_num [max_kernel_launches]) (by norm_num [UINT64_MOD])⟩⟩

/-! ### Claim C4 -/

/-- C4: has_failed is true exactly when some allocated device buffer has a
non-zero assertion count; it is false on a freshly constructed registry
(no buffers allocated), and becomes true as soon as the device-side
writer makes any allocated buffer's count non-zero. -/
theorem c4_has_failed :
    (∀ r : CUDAKernelLaunchRegistry,
      r.has_failed = true ↔ ∃ (d : Nat) (b : DeviceAssertionsData),
        r.uvm_assertions[d]? = some (some b) ∧ b.assertion_count ≠ 0) ∧
    (∀ (compiled envE allS gst : Bool) (dc : Nat),
      (mkRegistry compiled envE allS gst dc).has_failed = false) ∧
    (∀ (r : CUDAKernelLaunchRegistry) (d : Nat) (b : DeviceAssertionsData)
      (rec : DeviceAssertionData),
      r.uvm_assertions[d]? = some (some b) →
      (registryDeviceWrite r d rec).has_failed = true) := by
  refine ⟨?_, ?_, ?_⟩
  · intro r
    show r.uvm_assertions.any hasNonzeroCount = true ↔ _
    rw [List.any_eq_true]
    constructor
    · rintro ⟨x, hmem, hx⟩
      obtain ⟨i, hi⟩ := List.mem_iff_getElem?.mp hmem
      cases x with
      | none => simp [hasNonzeroCount] at hx
      | some b =>
        refine ⟨i, b, hi, ?_⟩
        simpa [hasNonzeroCount] using hx
    · rintro ⟨d, b, hd, hb⟩
      refine ⟨some b, List.getElem?_mem hd, ?_⟩
      simpa [hasNonzeroCount] using hb
  · intro compiled envE allS gst dc
    show (List.replicate dc (none : Option DeviceAssertionsData)).any hasNonzeroCount = false
    rw [Bool.eq_false_iff]
    intro h
    obtain ⟨x, hmem, hx⟩ := List.any_eq_true.mp h
    rw [List.eq_of_mem_replicate hmem] at hx
    simp [hasNonzeroCount] at hx
  · intro r d b rec hd
    have hlt : d < r.uvm_assertions.length := by
      by_contra hge
      rw [List.getElem?_eq_none_iff.mpr (by omega)] at hd
      cases hd
    show (registryDeviceWrite r d rec).uvm_assertions.any hasNonzeroCount = true
    rw [List.any_eq_true]
    refine ⟨some (deviceWriteAssertion b rec), ?_, by simp [hasNonzeroCount, deviceWriteAssertion]⟩
    apply List.getElem?_mem
    show (registryDeviceWrite r d rec).uvm_assertions[d]? = _
    unfold registryDeviceWrite
    rw [hd]
    exact List.getElem?_set_self (by simpa using hlt)

/-- A concrete registry with one allocated, empty device buffer, used by
witnesses. -/
def regWithBuffer : CUDAKernelLaunchRegistry :=
  { compiled_with_dsa := true
    generation_number := 0
    uvm_assertions := [some zeroDeviceAssertionsData]
    kernel_launches := List.replicate max_kernel_launches emptyLaunchInfo
    do_all_devices_support_managed_memory := true
    gather_launch_stacktrace := false
    enabled := true }

theorem c4_has_failed_witness :
    regWithBuffer.uvm_assertions[0]? = some (some zeroDeviceAssertionsData) ∧
      (registryDeviceWrite regWithBuffer 0 zeroDeviceAssertionData).has_failed = true :=
  ⟨rfl, c4_has_failed.2.2 regWithBuffer 0 zeroDeviceAssertionsData zeroDeviceAssertionData rfl⟩

/-! ### Claim C6 -/

/-- C6: is_enabled is the conjunction of the three enablement signals (the
environment-controlled run-time flag, the all-devices managed-memory
capability, and the compile-time DSA support); any single false signal
disables diagnostics globally, and the stack-trace toggle has no effect on
is_enabled. -/
theorem c6_is_enabled (r : CUDAKernelLaunchRegistry) :
    (r.is_enabled = true ↔
      (r.enabled = true ∧ r.do_all_devices_support_managed_memory = true ∧
        r.compiled_with_dsa = true)) ∧
    (r.enabled = false → r.is_enabled = false) ∧
    (r.do_all_devices_support_managed_memory = false → r.is_enabled = false) ∧
    (r.compiled_with_dsa = false → r.is_enabled = false) ∧
    (∀ b : Bool,
      CUDAKernelLaunchRegistry.is_enabled { r with gather_launch_stacktrace := b }
        = r.is_enabled) := by
  cases hc : r.compiled_with_dsa <;> cases hd : r.do_all_devices_support_managed_memory <;>
    cases he : r.enabled <;>
    simp [CUDAKernelLaunchRegistry.is_enabled, hc, hd, he]

theorem c6_is_enabled_witness :
    (mkRegistry true false true false 0).enabled = false ∧
      (mkRegistry true false true false 0).is_enabled = false :=
  ⟨rfl, (c6_is_enabled (mkRegistry true false true false 0)).2.1 rfl⟩

/-! ### Claim C7 -/

/-- C7: with diagnostics disabled, insert is a no-op returning the sentinel
value and leaving the counter and circular log untouched, and the buffer
accessor performs no allocation; insert is a total function of the state,
so no failure ever propagates to the kernel-launching caller. -/
theorem c7_disabled_noop (r : CUDAKernelLaunchRegistry) (a : LaunchArgs) (d : Nat)
    (h : r.is_enabled = false) :
    r.insert a = (r, insert_sentinel) ∧
    (r.insert a).1.generation_number = r.generation_number ∧
    (r.insert a).1.kernel_launches = r.kernel_launches ∧
    r.get_uvm_assertions_ptr_for_current_device d = (r, none) ∧
    (r.get_uvm_assertions_ptr_for_current_device d).1.uvm_assertions
      = r.uvm_assertions := by
  have h1 := insert_disabled r a h
  have h2 : r.get_uvm_assertions_ptr_for_current_device d = (r, none) := by
    simp [CUDAKernelLaunchRegistry.get_uvm_assertions_ptr_for_current_device, h]
  exact ⟨h1, by rw [h1], by rw [h1], h2, by rw [h2]⟩

theorem c7_disabled_noop_witness :
    (mkRegistry true false true false 1).is_enabled = false ∧
      (mkRegistry true false true false 1).insert sampleArgs
        = (mkRegistry true false true false 1, insert_sentinel) :=
  ⟨rfl, (c7_disabled_noop (mkRegistry true false true false 1) sampleArgs 0 rfl).1⟩

/-! ### Claim C8 -/

lemma get_uvm_of_allocated (r : CUDAKernelLaunchRegistry) (d : Nat)
    (b : DeviceAssertionsData) (hen : r.is_enabled = true)
    (hb : r.uvm_assertions[d]? = some (some b)) :
    r.get_uvm_assertions_ptr_for_current_device d = (r, some b) := by
  simp [CUDAKernelLaunchRegistry.get_uvm_assertions_ptr_for_current_device, hen, hb]

lemma get_uvm_of_unallocated (r : CUDAKernelLaunchRegistry) (d : Nat)
    (hen : r.is_enabled = true) (hb : r.uvm_assertions[d]? = some none) :
    r.get_uvm_assertions_ptr_for_current_device d =
      ({ r with uvm_assertions :=
          r.uvm_assertions.set d (some zeroDeviceAssertionsData) },
        some zeroDeviceAssertionsData) := by
  simp [CUDAKernelLaunchRegistry.get_uvm_assertions_ptr_for_current_device, hen, hb]

/-- C8: the buffer accessor is memoized per device.  The first call for an
unallocated device stores a zero-initialized buffer in the device slot and
returns it; calling again on the resulting state returns the identical
buffer and the identical state, performing no further allocation. -/
theorem c8_get_uvm_idempotent (r : CUDAKernelLaunchRegistry) (d : Nat)
    (hen : r.is_enabled = true) (hd : d < r.uvm_assertions.length) :
    (r.uvm_assertions[d]? = some none →
      (r.get_uvm_assertions_ptr_for_current_device d).2 = some zeroDeviceAssertionsData ∧
      (r.get_uvm_assertions_ptr_for_current_device d).1.uvm_assertions[d]?
        = some (some zeroDeviceAssertionsData)) ∧
    (r.get_uvm_assertions_ptr_for_current_device d).1.get_uvm_assertions_ptr_for_current_device d
      = ((r.get_uvm_assertions_ptr_for_current_device d).1,
         (r.get_uvm_assertions_ptr_for_current_device d).2) := by
  cases hx : r.uvm_assertions[d]? with
  | none =>
    exfalso
    rw [List.getElem?_eq_none_iff] at hx
    omega
  | some o =>
    cases o with
    | some b =>
      have e1 := get_uvm_of_allocated r d b hen hx
      constructor
      · intro hcontra
        simp at hcontra
      · rw [e1]
        exact get_uvm_of_allocated r d b hen hx
    | none =>
      have e1 := get_uvm_of_unallocated r d hen hx
      have hset : (r.uvm_assertions.set d (some zeroDeviceAssertionsData))[d]?
          = some (some zeroDeviceAssertionsData) :=
        List.getElem?_set_self hd
      constructor
      · intro _
        rw [e1]
        exact ⟨rfl, hset⟩
      · rw [e1]
        exact get_uvm_of_allocated _ d zeroDeviceAssertionsData hen hset

theorem c8_get_uvm_idempotent_witness :
    (mkRegistry true true true false 1).is_enabled = true ∧
    0 < (mkRegistry true true true false 1).uvm_assertions.length ∧
    ((mkRegistry true true true false 1).get_uvm_assertions_ptr_for_current_device 0).2
      = some zeroDeviceAssertionsData :=
  ⟨rfl, by simp [mkRegistry],
    ((c8_get_uvm_idempotent (mkRegistry true true true false 1) 0 rfl
      (by simp [mkRegistry])).1 rfl).1⟩

/-! ### Claim C5 -/

lemma deviceWriteMany_count (recs : List DeviceAssertionData) :
    ∀ b : DeviceAssertionsData,
    (deviceWriteMany b recs).assertion_count = b.assertion_count + recs.length := by
  induction recs with
  | nil => intro b; rfl
  | cons rec rest ih =>
    intro b
    rw [show deviceWriteMany b (rec :: rest)
        = deviceWriteMany (deviceWriteAssertion b rec) rest from rfl, ih]
    simp only [deviceWriteAssertion, List.length_cons]
    omega

lemma deviceWriteMany_assertions_length (recs : List DeviceAssertionData) :
    ∀ b : DeviceAssertionsData,
    (deviceWriteMany b recs).assertions.length = b.assertions.length := by
  induction recs with
  | nil => intro b; rfl
  | cons rec rest ih =>
    intro b
    rw [show deviceWriteMany b (rec :: rest)
        = deviceWriteMany (deviceWriteAssertion b rec) rest from rfl, ih]
    simp only [deviceWriteAssertion]
    split <;> simp

/-- Which record each array slot holds after a sequence of device-side
writes: slots below the capacity receive the record whose running index
reached them; all other slots are untouched. -/
lemma deviceWriteMany_get (recs : List DeviceAssertionData) :
    ∀ (b : DeviceAssertionsData) (i : Nat),
    b.assertions.length = C10_CUDA_DSA_ASSERTION_COUNT →
    (deviceWriteMany b recs).assertions[i]? =
      if b.assertion_count ≤ i ∧ i < b.assertion_count + recs.length ∧
          i < C10_CUDA_DSA_ASSERTION_COUNT then
        recs[i - b.assertion_count]?
      else b.assertions[i]? := by
  induction recs with
  | nil =>
    intro b i hlen
    rw [show deviceWriteMany b [] = b from rfl,
      if_neg (by simp only [List.length_nil]; omega)]
  | cons rec rest ih =>
    intro b i hlen
    have hlen1 : (deviceWriteAssertion b rec).assertions.length
        = C10_CUDA_DSA_ASSERTION_COUNT := by
      simp only [deviceWriteAssertion]
      split <;> simp [hlen]
    have hcnt : (deviceWriteAssertion b rec).assertion_count
        = b.assertion_count + 1 := rfl
    have harr : (deviceWriteAssertion b rec).assertions =
        if b.assertion_count < C10_CUDA_DSA_ASSERTION_COUNT then
          b.assertions.set b.assertion_count rec
        else b.assertions := rfl
    rw [show deviceWriteMany b (rec :: rest)
        = deviceWriteMany (deviceWriteAssertion b rec) rest from rfl,
      ih (deviceWriteAssertion b rec) i hlen1, hcnt, harr]
    simp only [List.length_cons]
    by_cases hbN : b.assertion_count < C10_CUDA_DSA_ASSERTION_COUNT
    · rw [if_pos hbN]
      by_cases hiN : i < C10_CUDA_DSA_ASSERTION_COUNT
      · by_cases hlow : i < b.assertion_count
        · rw [if_neg (by omega), List.getElem?_set_ne (by omega), if_neg (by omega)]
        · by_cases heq : i = b.assertion_count
          · rw [if_neg (by omega), heq, List.getElem?_set_self (by omega)]
            have hc : b.assertion_count ≤ b.assertion_count ∧
                b.assertion_count < b.assertion_count + (rest.length + 1) ∧
                b.assertion_count < C10_CUDA_DSA_ASSERTION_COUNT :=
              ⟨le_refl _, by omega, hbN⟩
            rw [if_pos hc]
            simp
          · by_cases hhi : i < b.assertion_count + 1 + rest.length
            · have hc1 : b.assertion_count + 1 ≤ i ∧
                  i < b.assertion_count + 1 + rest.length ∧
                  i < C10_CUDA_DSA_ASSERTION_COUNT := ⟨by omega, hhi, hiN⟩
              have hc2 : b.assertion_count ≤ i ∧
                  i < b.assertion_count + (rest.length + 1) ∧
                  i < C10_CUDA_DSA_ASSERTION_COUNT := ⟨by omega, by omega, hiN⟩
              rw [if_pos hc1, if_pos hc2]
              have hsub : i - b.assertion_count = (i - (b.assertion_count + 1)) + 1 := by
                omega
              rw [hsub, List.getElem?_cons_succ]
            · rw [if_neg (by omega), List.getElem?_set_ne (by omega), if_neg (by omega)]
      · rw [if_neg (by omega), List.getElem?_set_ne (by omega), if_neg (by omega)]
    · rw [if_neg hbN, if_neg (by omega), if_neg (by omega)]

lemma zero_buffer_length :
    zeroDeviceAssertionsData.assertions.length = C10_CUDA_DSA_ASSERTION_COUNT := by
  simp [zeroDeviceAssertionsData]

/-- C5: writing c > C10_CUDA_DSA_ASSERTION_COUNT failure records into one
zero-initialized device buffer records exactly the first
C10_CUDA_DSA_ASSERTION_COUNT of them, while the count still reflects all c
failures, so the overflow is observable; and array entries at or beyond
min(c, capacity) are never written (they keep their zero-initialized
content). -/
theorem c5_buffer_saturation :
    (∀ recs : List DeviceAssertionData,
      C10_CUDA_DSA_ASSERTION_COUNT < recs.length →
      (deviceWriteMany zeroDeviceAssertionsData recs).assertion_count = recs.length ∧
      (deviceWriteMany zeroDeviceAssertionsData recs).assertions.length
        = C10_CUDA_DSA_ASSERTION_COUNT ∧
      (∀ i, i < C10_CUDA_DSA_ASSERTION_COUNT →
        (deviceWriteMany zeroDeviceAssertionsData recs).assertions[i]? = recs[i]?)) ∧
    (∀ (recs : List DeviceAssertionData) (i : Nat), recs.length ≤ i →
      (deviceWriteMany zeroDeviceAssertionsData recs).assertions[i]?
        = zeroDeviceAssertionsData.assertions[i]?) := by
  constructor
  · intro recs hover
    refine ⟨?_, ?_, ?_⟩
    · rw [deviceWriteMany_count]
      simp [zeroDeviceAssertionsData]
    · rw [deviceWriteMany_assertions_length]
      exact zero_buffer_length
    · intro i hi
      rw [deviceWriteMany_get recs zeroDeviceAssertionsData i zero_buffer_length]
      rw [if_pos ⟨Nat.zero_le i, by
        simp only [zeroDeviceAssertionsData]
        omega, hi⟩]
      simp [zeroDeviceAssertionsData]
  · intro recs i hi
    rw [deviceWriteMany_get recs zeroDeviceAssertionsData i zero_buffer_length]
    rw [if_neg (by simp only [zeroDeviceAssertionsData]; omega)]

theorem c5_buffer_saturation_witness :
    C10_CUDA_DSA_ASSERTION_COUNT < (List.replicate 11 zeroDeviceAssertionData).length ∧
      (deviceWriteMany zeroDeviceAssertionsData
        (List.replicate 11 zeroDeviceAssertionData)).assertion_count
        = (List.replicate 11 zeroDeviceAssertionData).length :=
  ⟨by rw [List.length_replicate]; norm_num [C10_CUDA_DSA_ASSERTION_COUNT],
    (c5_buffer_saturation.1 (List.replicate 11 zeroDeviceAssertionData)
      (by rw [List.length_replicate]; norm_num [C10_CUDA_DSA_ASSERTION_COUNT])).1⟩

/-! ### Claim C9 -/

/-- C9: all three text fields of an assertion record are fixed-size
character buffers with the same declared capacity
C10_CUDA_DSA_MAX_STR_LEN = 512 bytes; storing text never exceeds that
bound (longer text is truncated), and text within the bound is stored
unchanged, so the record layout is independent of the input text length. -/
theorem c9_text_fields :
    (assertion_msg_capacity = 512 ∧ filename_capacity = 512 ∧
      function_name_capacity = 512 ∧ C10_CUDA_DSA_MAX_STR_LEN = 512) ∧
    (∀ (msg file fn : List Char) (line : Int) (cid : Nat)
      (blk thr : Int × Int × Int),
      (mkDeviceAssertionData msg file fn line cid blk thr).assertion_msg.length ≤ 512 ∧
      (mkDeviceAssertionData msg file fn line cid blk thr).filename.length ≤ 512 ∧
      (mkDeviceAssertionData msg file fn line cid blk thr).function_name.length ≤ 512 ∧
      (msg.length ≤ 512 →
        (mkDeviceAssertionData msg file fn line cid blk thr).assertion_msg = msg) ∧
      (file.length ≤ 512 →
        (mkDeviceAssertionData msg file fn line cid blk thr).filename = file) ∧
      (fn.length ≤ 512 →
        (mkDeviceAssertionData msg file fn line cid blk thr).function_name = fn)) := by
  refine ⟨⟨rfl, rfl, rfl, rfl⟩, ?_⟩
  intro msg file fn line cid blk thr
  refine ⟨?_, ?_, ?_, ?_, ?_, ?_⟩
  · show (storeTextField assertion_msg_capacity msg).length ≤ 512
    rw [storeTextField, List.length_take]
    simp only [assertion_msg_capacity, filename_capacity, function_name_capacity,
      C10_CUDA_DSA_MAX_STR_LEN]
    omega
  · show (storeTextField filename_capacity file).length ≤ 512
    rw [storeTextField, List.length_take]
    simp only [assertion_msg_capacity, filename_capacity, function_name_capacity,
      C10_CUDA_DSA_MAX_STR_LEN]
    omega
  · show (storeTextField function_name_capacity fn).length ≤ 512
    rw [storeTextField, List.length_take]
    simp only [assertion_msg_capacity, filename_capacity, function_name_capacity,
      C10_CUDA_DSA_MAX_STR_LEN]
    omega
  · intro h
    exact List.take_of_length_le h
  · intro h
    exact List.take_of_length_le h
  · intro h
    exact List.take_of_length_le h

theorem c9_text_fields_witness :
    (['a'] : List Char).length ≤ 512 ∧
      (mkDeviceAssertionData ['a'] ['b'] ['c'] 0 0 (0, 0, 0) (0, 0, 0)).assertion_msg
        = ['a'] :=
  ⟨by norm_num,
    (c9_text_fields.2 ['a'] ['b'] ['c'] 0 0 (0, 0, 0) (0, 0, 0)).2.2.2.1 (by norm_num)⟩

/-! ### Claim C10 -/

/-- C10: the generation number crosses a width boundary at the public
interface.  The counter advances as a 64-bit value and the LaunchRecord
stores the full 64-bit generation number, but insert returns the counter
reduced to uint32 and the assertion record stores the caller id in a
uint32 field; consequently the caller id equals the true generation
number modulo 2 ^ 32, and the values returned for calls k and k + 2 ^ 32
of the same run coincide even though the internal generation numbers
differ. -/
theorem c10_width_boundary :
    (∀ (r : CUDAKernelLaunchRegistry) (a : LaunchArgs), r.is_enabled = true →
      r.kernel_launches.length = max_kernel_launches →
      (r.insert a).2 = r.generation_number % UINT32_MOD ∧
      (r.insert a).1.generation_number = (r.generation_number + 1) % UINT64_MOD ∧
      (r.insert a).1.kernel_launches[r.generation_number % max_kernel_launches]?
        = some (launchInfoOf a r.gather_launch_stacktrace r.generation_number)) ∧
    (∀ (msg file fn : List Char) (line : Int) (cid : Nat)
      (blk thr : Int × Int × Int),
      (mkDeviceAssertionData msg file fn line cid blk thr).caller
        = cid % UINT32_MOD) ∧
    (∀ (gst : Bool) (dc : Nat) (args : List LaunchArgs) (k : Nat),
      k + UINT32_MOD < args.length → args.length ≤ UINT64_MOD →
      (runInserts (mkRegistry true true true gst dc) args).2[k]?
          = some (k % UINT32_MOD) ∧
      (runInserts (mkRegistry true true true gst dc) args).2[k + UINT32_MOD]?
          = some (k % UINT32_MOD) ∧
      k % UINT64_MOD ≠ (k + UINT32_MOD) % UINT64_MOD) := by
  refine ⟨?_, ?_, ?_⟩
  · intro r a hen hlen
    refine ⟨by simp [CUDAKernelLaunchRegistry.insert, hen], insert_counter r a hen, ?_⟩
    rw [insert_log r a hen]
    exact List.getElem?_set_self (by rw [hlen]; exact Nat.mod_lt _ max_kernel_launches_pos)
  · intro msg file fn line cid blk thr
    rfl
  · intro gst dc args k h1 h2
    refine ⟨?_, ?_, ?_⟩
    · rw [runInserts_gens_get args (mkRegistry true true true gst dc) k
        (init_is_enabled gst dc) (init_counter_lt gst dc) (by omega)]
      rw [init_counter, Nat.zero_add]
    · rw [runInserts_gens_get args (mkRegistry true true true gst dc) (k + UINT32_MOD)
        (init_is_enabled gst dc) (init_counter_lt gst dc) (by omega)]
      rw [init_counter, Nat.zero_add, Nat.add_mod_right]
    · rw [Nat.mod_eq_of_lt (by simp only [UINT32_MOD, UINT64_MOD] at *; omega),
        Nat.mod_eq_of_lt (by simp only [UINT32_MOD, UINT64_MOD] at *; omega)]
      simp only [UINT32_MOD]
      omega

theorem c10_width_boundary_witness :
    0 + UINT32_MOD < (List.replicate (UINT32_MOD + 1) sampleArgs).length ∧
      (runInserts (mkRegistry true true true false 1)
        (List.replicate (UINT32_MOD + 1) sampleArgs)).2[0 + UINT32_MOD]?
        = some (0 % UINT32_MOD) :=
  ⟨by rw [List.length_replicate]; omega,
    (c10_width_boundary.2.2 false 1 (List.replicate (UINT32_MOD + 1) sampleArgs) 0
      (by rw [List.length_replicate]; omega)
      (by rw [List.length_replicate]; simp only [UINT32_MOD, UINT64_MOD]; omega)).2.1⟩
